import Mathlib

/-
Verification of the profile-bootstrap protocol, auth state handling, and the
shipment map real-time handler of the duplikat tracking application.

The definitions below are shallow embeddings of:
  - ensureUserInProfiles and its helpers (supabaseUtils),
  - create_user_profile / handle_new_user (SQL migration 20250614133240),
  - the AuthContext signOut and fetchUserProfile functions,
  - the ShipmentMap real-time event handler.

External calls (auth.getUser, select, rpc, insert) are modeled by an
environment that chooses, for each call, whether it succeeds, returns an
error object, or throws an exception; the data itself comes from an explicit
profile store (a list of rows).
-/

namespace DupTrack

/-- Role enum stored in the profiles table (SQL type user_role). -/
inductive Role where
  | user
  | admin
deriving DecidableEq, Repr

/-- A row of the profiles table (id is the primary key). -/
structure Profile where
  id : String
  name : String
  role : Role
deriving DecidableEq, Repr

/-- The profiles table, a list of rows; primary-key uniqueness is the
Nodup property of the mapped ids. -/
abbrev Store := List Profile

/-- SELECT * FROM profiles WHERE id = uid (maybeSingle): first row with the
given id. -/
def storeLookup (s : Store) (uid : String) : Option Profile :=
  s.find? (fun p => p.id = uid)

/-- Role validation of create_user_profile: IF user_role = admin THEN admin
ELSE user. -/
def coerceRole (userRole : String) : Role :=
  if userRole = "admin" then Role.admin else Role.user

/-- Replace the first row whose id equals the new row's id. -/
def replaceById : Store → Profile → Store
  | [], _ => []
  | q :: rest, p => if q.id = p.id then p :: rest else q :: replaceById rest p

/-- The SECURITY DEFINER function create_user_profile of migration
20250614133240: INSERT ... ON CONFLICT (id) DO UPDATE SET name, role;
the role argument is coerced by coerceRole. -/
def create_user_profile (s : Store) (uid userName userRole : String) : Store :=
  let p : Profile := ⟨uid, userName, coerceRole userRole⟩
  if (storeLookup s uid).isSome then replaceById s p else s ++ [p]

/-- Identity metadata map fields used by the code (user_metadata.name and
user_metadata.full_name). -/
structure UserMetadata where
  name : Option String
  full_name : Option String
deriving DecidableEq, Repr

/-- The authenticated identity returned by supabase.auth.getUser. -/
structure AuthUser where
  id : String
  email : Option String
  user_metadata : Option UserMetadata
deriving DecidableEq, Repr

/-- The text before the first character @, i.e. email.split(@)[0] in JS and
split_part(email, @, 1) in SQL. -/
def localPart (e : String) : String :=
  ⟨e.data.takeWhile (fun c => c ≠ '@')⟩

/-- JS truthiness filter on an optional string: undefined and the empty
string are falsy. -/
def jsTruthy : Option String → Option String
  | some s => if s = "" then none else some s
  | none => none

/-- Client-side name resolution of ensureUserInProfiles:
user_metadata?.name || user_metadata?.full_name || email?.split(@)[0] ||
the literal User, where || skips falsy (absent or empty) values. -/
def resolveName (u : AuthUser) : String :=
  match jsTruthy (u.user_metadata.bind UserMetadata.name) with
  | some n => n
  | none =>
    match jsTruthy (u.user_metadata.bind UserMetadata.full_name) with
    | some n => n
    | none =>
      match jsTruthy (u.email.map localPart) with
      | some n => n
      | none => "User"

/-- Name resolution as the claim states it literally: the metadata entry
name if present, else full_name, else the email local part, else User
(presence alone decides, an empty string counts as present). -/
def resolveNamePresent (u : AuthUser) : String :=
  match u.user_metadata.bind UserMetadata.name with
  | some n => n
  | none =>
    match u.user_metadata.bind UserMetadata.full_name with
    | some n => n
    | none =>
      match u.email with
      | some e => localPart e
      | none => "User"

/-- Server-side name resolution of the trigger handle_new_user:
COALESCE(meta name, meta full_name, split_part(email, @, 1), User);
COALESCE skips only NULL, never the empty string. -/
def triggerName (nm fullName email : Option String) : String :=
  match nm with
  | some x => x
  | none =>
    match fullName with
    | some x => x
    | none =>
      match email.map localPart with
      | some x => x
      | none => "User"

/-- The trigger handle_new_user: creates the profile via
create_user_profile(id, resolved name, user). -/
def handle_new_user (s : Store) (uid : String) (nm fullName email : Option String) : Store :=
  create_user_profile s uid (triggerName nm fullName email) "user"

/-- Outcome chosen by the environment for one external call: success,
an error object returned in the error field, or a thrown exception. -/
inductive CallMode where
  | ok
  | errReturned
  | raise
deriving DecidableEq, Repr

/-- Outcome of supabase.auth.getUser: a user or null, or a thrown
exception. -/
inductive GetUserRes where
  | ok (u : Option AuthUser)
  | raise
deriving DecidableEq, Repr

/-- Error environment of one ensureUserInProfiles invocation: the outcome
of each external call it may perform. -/
structure Env where
  getUser : GetUserRes
  selectMode : CallMode
  rpcMode : CallMode
  insertMode : CallMode
  finalMode : CallMode
deriving DecidableEq, Repr

/-- Operations ensureUserInProfiles performs against the backend, in
order: the existence select, the create_user_profile RPC, the direct
insert, and the final existence re-check. -/
inductive Op where
  | selectProfiles (uid : String)
  | rpcCreateProfile (uid userName userRole : String)
  | insertProfiles (uid userName : String) (role : Role)
  | finalCheck (uid : String)
deriving DecidableEq, Repr

/-- Result of running ensureUserInProfiles: whether an uncaught exception
is propagating, the boolean result, the resulting store, and the trace of
backend operations attempted. -/
structure Run where
  raised : Bool
  result : Bool
  store : Store
  ops : List Op
deriving DecidableEq, Repr

/-- The final existence re-check of ensureUserInProfiles (the select whose
error is ignored and whose data decides true or false). -/
def finalCheckStep (env : Env) (s : Store) (uid : String) (ops : List Op) : Run :=
  match env.finalMode with
  | CallMode.raise => ⟨true, false, s, ops ++ [Op.finalCheck uid]⟩
  | CallMode.ok =>
    match storeLookup s uid with
    | some _ => ⟨false, true, s, ops ++ [Op.finalCheck uid]⟩
    | none => ⟨false, false, s, ops ++ [Op.finalCheck uid]⟩
  | CallMode.errReturned => ⟨false, false, s, ops ++ [Op.finalCheck uid]⟩

/-- Body of ensureUserInProfiles before the surrounding try/catch: raised
is true when a call threw and the exception is propagating. Mirrors
supabaseUtils lines 33 to 112: unauthenticated short-circuit, existence
select (error only logged), RPC create_user_profile, direct insert
fallback (a primary-key conflict is an insert error), final re-check. -/
def ensureInner (env : Env) (s : Store) : Run :=
  match env.getUser with
  | GetUserRes.raise => ⟨true, false, s, []⟩
  | GetUserRes.ok none => ⟨false, false, s, []⟩
  | GetUserRes.ok (some u) =>
    if env.selectMode = CallMode.raise then ⟨true, false, s, [Op.selectProfiles u.id]⟩ else
    let existingProfile : Option Profile :=
      if env.selectMode = CallMode.ok then storeLookup s u.id else none
    match existingProfile with
    | some _ => ⟨false, true, s, [Op.selectProfiles u.id]⟩
    | none =>
      let userName := resolveName u
      let ops1 := [Op.selectProfiles u.id, Op.rpcCreateProfile u.id userName "user"]
      match env.rpcMode with
      | CallMode.raise => ⟨true, false, s, ops1⟩
      | CallMode.ok => ⟨false, true, create_user_profile s u.id userName "user", ops1⟩
      | CallMode.errReturned =>
        let ops2 := ops1 ++ [Op.insertProfiles u.id userName Role.user]
        match env.insertMode with
        | CallMode.raise => ⟨true, false, s, ops2⟩
        | CallMode.ok =>
          if (storeLookup s u.id).isSome then
            finalCheckStep env s u.id ops2
          else
            ⟨false, true, s ++ [⟨u.id, userName, Role.user⟩], ops2⟩
        | CallMode.errReturned => finalCheckStep env s u.id ops2

/-- ensureUserInProfiles: the body wrapped in try/catch; a propagating
exception is caught and converted to the boolean false. -/
def ensureUserInProfiles (env : Env) (s : Store) : Run :=
  let r := ensureInner env s
  if r.raised then ⟨false, false, r.store, r.ops⟩ else r

/-- Local state held by AuthProvider: user, session, profile, isLoading.
User and session are kept opaque (only null-ness matters here). -/
structure AuthState where
  user : Option String
  session : Option String
  profile : Option Profile
  isLoading : Bool
deriving DecidableEq, Repr

/-- Derived flag of AuthProvider: profile?.role === admin. -/
def isAdmin (st : AuthState) : Bool :=
  match st.profile with
  | some p => p.role = Role.admin
  | none => false

/-- Outcome of the remote supabase.auth.signOut call. -/
inductive SignOutRemote where
  | ok
  | errReturned
  | thrown
deriving DecidableEq, Repr

/-- AuthContext signOut: clears user, session and profile first, then calls
the remote sign-out; a returned error is only logged, and the catch branch
clears the same state again. -/
def signOut (st : AuthState) (remote : SignOutRemote) : AuthState :=
  let cleared : AuthState := { st with user := none, session := none, profile := none }
  match remote with
  | SignOutRemote.thrown => { cleared with user := none, session := none, profile := none }
  | _ => cleared

/-- Outcomes of one attempt inside fetchUserProfile: the select outcome and
the environment of the nested ensureUserInProfiles call. -/
structure FetchStep where
  selectMode : CallMode
  ensureEnv : Env
deriving Repr

/-- AuthContext fetchUserProfile(userId, retryCount): select the profile;
on error or exception return null; if no row, call ensureUserInProfiles
and, when it returned true and retryCount < 2, recurse with
retryCount + 1; otherwise return null. The third component counts select
attempts performed. -/
def fetchUserProfile (step : Nat → FetchStep) (s : Store) (userId : String)
    (retryCount : Nat) : Option Profile × Store × Nat :=
  match (step retryCount).selectMode with
  | CallMode.raise => (none, s, 1)
  | CallMode.errReturned => (none, s, 1)
  | CallMode.ok =>
    match storeLookup s userId with
    | some p => (some p, s, 1)
    | none =>
      let er := ensureUserInProfiles (step retryCount).ensureEnv s
      if h : er.result = true ∧ retryCount < 2 then
        let r := fetchUserProfile step er.store userId (retryCount + 1)
        (r.1, r.2.1, r.2.2 + 1)
      else
        (none, er.store, 1)
termination_by 2 - retryCount
decreasing_by omega

/-- A shipment marker held in the map state: id and current coordinates.
Coordinates are modeled as integers; only null-ness and zero-ness (JS
falsiness) matter to the handler. -/
structure ShipLoc where
  id : String
  lat : Int
  lng : Int
deriving DecidableEq, Repr

/-- The raw record carried by a real-time event (payload.new):
current_lat and current_lng may be null. -/
structure ShipRow where
  id : String
  current_lat : Option Int
  current_lng : Option Int
deriving DecidableEq, Repr

/-- JS truthiness of an optional number: null, undefined and 0 are falsy. -/
def numTruthy : Option Int → Bool
  | some x => x ≠ 0
  | none => false

/-- The marker built from an event record. -/
def shipOfRow (row : ShipRow) : ShipLoc :=
  ⟨row.id, row.current_lat.getD 0, row.current_lng.getD 0⟩

/-- A change event delivered on the shipment channel: eventType UPDATE
with payload.new, DELETE with payload.old.id, or INSERT with
payload.new. -/
inductive RtEvent where
  | update (row : ShipRow)
  | del (oldId : String)
  | ins (row : ShipRow)
deriving DecidableEq, Repr

/-- Replace the first marker whose id equals the new marker's id. -/
def replaceFirstShip : List ShipLoc → ShipLoc → List ShipLoc
  | [], _ => []
  | q :: rest, p => if q.id = p.id then p :: rest else q :: replaceFirstShip rest p

/-- The ShipmentMap subscription callback (part_004 lines 236 to 282):
UPDATE events with truthy coordinates replace the shipment at the found
index or append it; DELETE events filter the id out; any other event type
(in particular INSERT) falls through both branches and leaves the state
unchanged. -/
def handleShipmentEvent (ev : RtEvent) (prev : List ShipLoc) : List ShipLoc :=
  match ev with
  | RtEvent.update row =>
    if numTruthy row.current_lat && numTruthy row.current_lng then
      let sh := shipOfRow row
      if prev.any (fun s => s.id = row.id) then replaceFirstShip prev sh
      else prev ++ [sh]
    else prev
  | RtEvent.del oldId => prev.filter (fun s => ¬ (s.id = oldId))
  | RtEvent.ins _ => prev

/-- The handler as the claim states it: whether the event type is insert,
update, or delete, the state is updated from the carried record; update
replaces or adds the matching shipment, delete removes it, insert adds
it. -/
def handleShipmentEventClaim (ev : RtEvent) (prev : List ShipLoc) : List ShipLoc :=
  match ev with
  | RtEvent.update row =>
    let sh := shipOfRow row
    if prev.any (fun s => s.id = row.id) then replaceFirstShip prev sh
    else prev ++ [sh]
  | RtEvent.del oldId => prev.filter (fun s => ¬ (s.id = oldId))
  | RtEvent.ins row => prev ++ [shipOfRow row]

/-! Helper lemmas about the store operations. -/

theorem map_id_replaceById (s : Store) (p : Profile) :
    (replaceById s p).map Profile.id = s.map Profile.id := by
  induction s with
  | nil => rfl
  | cons q rest ih =>
    by_cases hq : q.id = p.id
    · simp [replaceById, hq]
    · simp [replaceById, hq, ih]

theorem find?_replaceById (s : Store) (p : Profile)
    (h : (storeLookup s p.id).isSome) :
    storeLookup (replaceById s p) p.id = some p := by
  induction s with
  | nil => simp [storeLookup] at h
  | cons q rest ih =>
    by_cases hq : q.id = p.id
    · simp [replaceById, hq, storeLookup]
    · have h2 : (storeLookup rest p.id).isSome := by
        simpa [storeLookup, hq] using h
      simpa [replaceById, hq, storeLookup] using ih h2

theorem storeLookup_append_single (s : Store) (p : Profile)
    (h : storeLookup s p.id = none) :
    storeLookup (s ++ [p]) p.id = some p := by
  unfold storeLookup at h ⊢
  rw [List.find?_append, h]
  simp

theorem storeLookup_none_notMem (s : Store) (uid : String)
    (h : storeLookup s uid = none) : uid ∉ s.map Profile.id := by
  simp only [storeLookup, List.find?_eq_none] at h
  intro hmem
  obtain ⟨p, hp, hid⟩ := List.mem_map.mp hmem
  exact absurd (by simpa using (h p hp)) (by simp [hid])

theorem create_user_profile_lookup (s : Store) (uid userName userRole : String) :
    storeLookup (create_user_profile s uid userName userRole) uid
      = some ⟨uid, userName, coerceRole userRole⟩ := by
  by_cases h : (storeLookup s uid).isSome
  · simpa [create_user_profile, h] using
      find?_replaceById s ⟨uid, userName, coerceRole userRole⟩ h
  · have hn : storeLookup s uid = none := by
      cases hx : storeLookup s uid <;> simp [hx] at h ⊢
    simpa [create_user_profile, hn] using
      storeLookup_append_single s ⟨uid, userName, coerceRole userRole⟩ hn

theorem nodup_create_user_profile (s : Store) (uid userName userRole : String)
    (h : (s.map Profile.id).Nodup) :
    ((create_user_profile s uid userName userRole).map Profile.id).Nodup := by
  by_cases hs : (storeLookup s uid).isSome
  · simpa [create_user_profile, hs, map_id_replaceById] using h
  · have hn : storeLookup s uid = none := by
      cases hx : storeLookup s uid <;> simp [hx] at hs ⊢
    have hnm := storeLookup_none_notMem s uid hn
    simp [create_user_profile, hn, List.nodup_append, h]
    intro p hp hid
    exact hnm (List.mem_map.mpr ⟨p, hp, hid⟩)

theorem storeLookup_append_isSome (s : Store) (uid nm : String) (rl : Role)
    (h : storeLookup s uid = none) :
    (storeLookup (s ++ [⟨uid, nm, rl⟩]) uid).isSome = true := by
  rw [show storeLookup (s ++ [⟨uid, nm, rl⟩]) uid = some ⟨uid, nm, rl⟩ from
    storeLookup_append_single s ⟨uid, nm, rl⟩ h]
  rfl

theorem nodup_map_id_append (s : Store) (uid : String)
    (h : (s.map Profile.id).Nodup) (hn : storeLookup s uid = none) :
    (s.map Profile.id ++ [uid]).Nodup := by
  have hnm := storeLookup_none_notMem s uid hn
  simp [List.nodup_append, h]
  intro p hp hid
  exact hnm (List.mem_map.mpr ⟨p, hp, hid⟩)

theorem ensure_shortCircuit (env : Env) (s : Store) (u : AuthUser)
    (hg : env.getUser = GetUserRes.ok (some u))
    (hs : env.selectMode = CallMode.ok)
    (hl : (storeLookup s u.id).isSome) :
    ensureUserInProfiles env s = ⟨false, true, s, [Op.selectProfiles u.id]⟩ := by
  obtain ⟨p, hp⟩ := Option.isSome_iff_exists.mp hl
  simp [ensureUserInProfiles, ensureInner, hg, hs, hp]

theorem ensure_result_true_lookup (env : Env) (s : Store) (u : AuthUser)
    (hg : env.getUser = GetUserRes.ok (some u))
    (hres : (ensureUserInProfiles env s).result = true) :
    (storeLookup (ensureUserInProfiles env s).store u.id).isSome := by
  obtain ⟨g, sm, rm, im, fm⟩ := env
  simp only at hg
  subst hg
  rcases sm <;> rcases rm <;> rcases im <;> rcases fm <;>
    cases hl : storeLookup s u.id <;>
      simp_all [ensureUserInProfiles, ensureInner, finalCheckStep,
        create_user_profile_lookup, storeLookup_append_single, hl] <;>
    exact storeLookup_append_isSome s u.id (resolveName u) Role.user hl

theorem ensure_preserves_nodup (env : Env) (s : Store)
    (h : (s.map Profile.id).Nodup) :
    ((ensureUserInProfiles env s).store.map Profile.id).Nodup := by
  obtain ⟨g, sm, rm, im, fm⟩ := env
  rcases g with u | _
  · rcases u with _ | u
    · simpa [ensureUserInProfiles, ensureInner] using h
    · rcases sm <;> rcases rm <;> rcases im <;> rcases fm <;>
        cases hl : storeLookup s u.id <;>
          simp_all [ensureUserInProfiles, ensureInner, finalCheckStep,
            nodup_create_user_profile, hl] <;>
        exact nodup_map_id_append s u.id h hl
  · simpa [ensureUserInProfiles, ensureInner] using h

/-! Claim theorems. -/

/-- C3: for every combination of outcomes of the identity source, the
select, the RPC and the insert (success, returned error, or thrown
exception), ensureUserInProfiles never lets an exception propagate to its
caller: the run it returns is never in the raised state, every error is
absorbed into the fallback chain or the boolean false. -/
theorem ensure_never_raises (env : Env) (s : Store) :
    (ensureUserInProfiles env s).raised = false := by
  unfold ensureUserInProfiles
  cases h : (ensureInner env s).raised <;> simp [h]

/-- C4: invoked while no identity is authenticated, ensureUserInProfiles
returns false, performs no backend operation (empty operation trace: no
profile read, no RPC, no insert), and leaves the store unchanged. -/
theorem ensure_unauthenticated (env : Env) (s : Store)
    (h : env.getUser = GetUserRes.ok none) :
    ensureUserInProfiles env s = ⟨false, false, s, []⟩ := by
  simp [ensureUserInProfiles, ensureInner, h]

/-- Witness for C4 at a concrete environment. -/
theorem ensure_unauthenticated_witness :
    (Env.mk (GetUserRes.ok none) CallMode.ok CallMode.ok CallMode.ok
        CallMode.ok).getUser = GetUserRes.ok none
    ∧ ensureUserInProfiles
        (Env.mk (GetUserRes.ok none) CallMode.ok CallMode.ok CallMode.ok CallMode.ok)
        [] = ⟨false, false, [], []⟩ :=
  ⟨rfl, ensure_unauthenticated
    (Env.mk (GetUserRes.ok none) CallMode.ok CallMode.ok CallMode.ok CallMode.ok)
    [] rfl⟩

/-- C9: after signOut completes, user, session and profile are all null and
isAdmin reads false, whatever the outcome of the remote sign-out call
(success, returned error, or thrown exception). -/
theorem signOut_clears (st : AuthState) (remote : SignOutRemote) :
    (signOut st remote).user = none ∧ (signOut st remote).session = none
    ∧ (signOut st remote).profile = none
    ∧ isAdmin (signOut st remote) = false := by
  rcases remote <;> simp [signOut, isAdmin]

/-- C1: with an authenticated identity and every failure being a returned
(non-fatal) error, the strategies run in the fixed order select, RPC,
direct insert, final re-check, each attempted exactly when all prior ones
failed, and the result is true exactly when one of the four strategies
confirms or creates the profile. -/
theorem ensure_strategy_chain (env : Env) (s : Store) (u : AuthUser)
    (hnt : env.selectMode ≠ CallMode.raise ∧ env.rpcMode ≠ CallMode.raise
      ∧ env.insertMode ≠ CallMode.raise ∧ env.finalMode ≠ CallMode.raise)
    (hu : env.getUser = GetUserRes.ok (some u)) :
    ((ensureUserInProfiles env s).result =
      ((env.selectMode == CallMode.ok && (storeLookup s u.id).isSome)
        || (env.rpcMode == CallMode.ok)
        || (env.insertMode == CallMode.ok && (storeLookup s u.id).isNone)
        || (env.finalMode == CallMode.ok && (storeLookup s u.id).isSome)))
    ∧ ((ensureUserInProfiles env s).ops =
      if env.selectMode == CallMode.ok && (storeLookup s u.id).isSome then
        [Op.selectProfiles u.id]
      else if env.rpcMode == CallMode.ok then
        [Op.selectProfiles u.id, Op.rpcCreateProfile u.id (resolveName u) "user"]
      else if env.insertMode == CallMode.ok && (storeLookup s u.id).isNone then
        [Op.selectProfiles u.id, Op.rpcCreateProfile u.id (resolveName u) "user",
          Op.insertProfiles u.id (resolveName u) Role.user]
      else
        [Op.selectProfiles u.id, Op.rpcCreateProfile u.id (resolveName u) "user",
          Op.insertProfiles u.id (resolveName u) Role.user, Op.finalCheck u.id]) := by
  obtain ⟨g, sm, rm, im, fm⟩ := env
  dsimp only at hu hnt
  subst hu
  obtain ⟨h1, h2, h3, h4⟩ := hnt
  rcases sm <;> rcases rm <;> rcases im <;> rcases fm <;>
    first
      | exact absurd rfl h1
      | exact absurd rfl h2
      | exact absurd rfl h3
      | exact absurd rfl h4
      | (cases hl : storeLookup s u.id <;>
          simp_all [ensureUserInProfiles, ensureInner, finalCheckStep, hl])

/-- Witness for C1: a run in which the select errs, the RPC errs, the
insert succeeds; the chain is walked in order and stops at the insert. -/
theorem ensure_strategy_chain_witness :
    ((Env.mk (GetUserRes.ok (some ⟨"w1", none, none⟩)) CallMode.errReturned
        CallMode.errReturned CallMode.ok CallMode.errReturned).selectMode
          ≠ CallMode.raise
      ∧ (Env.mk (GetUserRes.ok (some ⟨"w1", none, none⟩)) CallMode.errReturned
        CallMode.errReturned CallMode.ok CallMode.errReturned).rpcMode
          ≠ CallMode.raise
      ∧ (Env.mk (GetUserRes.ok (some ⟨"w1", none, none⟩)) CallMode.errReturned
        CallMode.errReturned CallMode.ok CallMode.errReturned).insertMode
          ≠ CallMode.raise
      ∧ (Env.mk (GetUserRes.ok (some ⟨"w1", none, none⟩)) CallMode.errReturned
        CallMode.errReturned CallMode.ok CallMode.errReturned).finalMode
          ≠ CallMode.raise)
    ∧ ((ensureUserInProfiles (Env.mk (GetUserRes.ok (some ⟨"w1", none, none⟩))
        CallMode.errReturned CallMode.errReturned CallMode.ok
        CallMode.errReturned) []).result = true
      ∧ (ensureUserInProfiles (Env.mk (GetUserRes.ok (some ⟨"w1", none, none⟩))
        CallMode.errReturned CallMode.errReturned CallMode.ok
        CallMode.errReturned) []).ops =
          [Op.selectProfiles "w1", Op.rpcCreateProfile "w1" "User" "user",
            Op.insertProfiles "w1" "User" Role.user]) :=
  ⟨by refine ⟨?_, ?_, ?_, ?_⟩ <;> decide,
    by
      have h := ensure_strategy_chain
        (Env.mk (GetUserRes.ok (some ⟨"w1", none, none⟩)) CallMode.errReturned
          CallMode.errReturned CallMode.ok CallMode.errReturned)
        [] ⟨"w1", none, none⟩ (by refine ⟨?_, ?_, ?_, ?_⟩ <;> decide) rfl
      refine ⟨?_, ?_⟩
      · rw [h.1]; decide
      · rw [h.2]; decide⟩

/-- C2: after a first bootstrap call that returned true, a second call for
the same identity whose existence select is reachable takes the
short-circuit: it returns true, leaves the store unchanged and performs
only the existence select; moreover every write path keeps the store free
of duplicate ids, so a second row for the identity is never created. -/
theorem ensure_idempotent (env1 env2 : Env) (s : Store) (u : AuthUser)
    (hids : (s.map Profile.id).Nodup)
    (hu1 : env1.getUser = GetUserRes.ok (some u))
    (hu2 : env2.getUser = GetUserRes.ok (some u))
    (hsel2 : env2.selectMode = CallMode.ok)
    (h1 : (ensureUserInProfiles env1 s).result = true) :
    (ensureUserInProfiles env2 (ensureUserInProfiles env1 s).store).result = true
    ∧ (ensureUserInProfiles env2 (ensureUserInProfiles env1 s).store).store
        = (ensureUserInProfiles env1 s).store
    ∧ (ensureUserInProfiles env2 (ensureUserInProfiles env1 s).store).ops
        = [Op.selectProfiles u.id]
    ∧ ((ensureUserInProfiles env1 s).store.map Profile.id).Nodup
    ∧ (∀ (env3 : Env) (s3 : Store), (s3.map Profile.id).Nodup →
        ((ensureUserInProfiles env3 s3).store.map Profile.id).Nodup) := by
  have hl := ensure_result_true_lookup env1 s u hu1 h1
  have hsc := ensure_shortCircuit env2 (ensureUserInProfiles env1 s).store u hu2 hsel2 hl
  exact ⟨by rw [hsc], by rw [hsc], by rw [hsc],
    ensure_preserves_nodup env1 s hids,
    fun env3 s3 h3 => ensure_preserves_nodup env3 s3 h3⟩

/-- Witness for C2: both calls with everything succeeding; the profile is
created by the first call and found by the second. -/
theorem ensure_idempotent_witness :
    ((ensureUserInProfiles (Env.mk (GetUserRes.ok (some ⟨"w1", none, none⟩))
        CallMode.ok CallMode.ok CallMode.ok CallMode.ok) []).result = true)
    ∧ (ensureUserInProfiles (Env.mk (GetUserRes.ok (some ⟨"w1", none, none⟩))
        CallMode.ok CallMode.ok CallMode.ok CallMode.ok)
        (ensureUserInProfiles (Env.mk (GetUserRes.ok (some ⟨"w1", none, none⟩))
          CallMode.ok CallMode.ok CallMode.ok CallMode.ok) []).store).result = true
    ∧ (ensureUserInProfiles (Env.mk (GetUserRes.ok (some ⟨"w1", none, none⟩))
        CallMode.ok CallMode.ok CallMode.ok CallMode.ok)
        (ensureUserInProfiles (Env.mk (GetUserRes.ok (some ⟨"w1", none, none⟩))
          CallMode.ok CallMode.ok CallMode.ok CallMode.ok) []).store).store
      = (ensureUserInProfiles (Env.mk (GetUserRes.ok (some ⟨"w1", none, none⟩))
          CallMode.ok CallMode.ok CallMode.ok CallMode.ok) []).store :=
  ⟨by decide,
    (ensure_idempotent
      (Env.mk (GetUserRes.ok (some ⟨"w1", none, none⟩)) CallMode.ok CallMode.ok
        CallMode.ok CallMode.ok)
      (Env.mk (GetUserRes.ok (some ⟨"w1", none, none⟩)) CallMode.ok CallMode.ok
        CallMode.ok CallMode.ok)
      [] ⟨"w1", none, none⟩ (by decide) rfl rfl rfl (by decide)).1,
    (ensure_idempotent
      (Env.mk (GetUserRes.ok (some ⟨"w1", none, none⟩)) CallMode.ok CallMode.ok
        CallMode.ok CallMode.ok)
      (Env.mk (GetUserRes.ok (some ⟨"w1", none, none⟩)) CallMode.ok CallMode.ok
        CallMode.ok CallMode.ok)
      [] ⟨"w1", none, none⟩ (by decide) rfl rfl rfl (by decide)).2.1⟩

/-- C6: the role stored by create_user_profile is admin exactly when the
role argument is the string admin, every other string is coerced to user;
both the bootstrap chain and the trigger pass user, so a freshly
bootstrapped profile has role user. -/
theorem create_user_profile_role_coercion :
    (∀ (s : Store) (uid nm rl : String),
      storeLookup (create_user_profile s uid nm rl) uid
        = some ⟨uid, nm, coerceRole rl⟩)
    ∧ (∀ rl : String, coerceRole rl = Role.admin ↔ rl = "admin")
    ∧ (∀ (env : Env) (s : Store) (u : AuthUser),
        env.getUser = GetUserRes.ok (some u) → env.selectMode = CallMode.ok →
        storeLookup s u.id = none → env.rpcMode = CallMode.ok →
        storeLookup (ensureUserInProfiles env s).store u.id
          = some ⟨u.id, resolveName u, Role.user⟩)
    ∧ (∀ (s : Store) (uid : String) (nm fullName email : Option String),
        storeLookup (handle_new_user s uid nm fullName email) uid
          = some ⟨uid, triggerName nm fullName email, Role.user⟩) := by
  refine ⟨create_user_profile_lookup, ?_, ?_, ?_⟩
  · intro rl
    unfold coerceRole
    by_cases h : rl = "admin" <;> simp [h]
  · intro env s u hg hs hl hr
    obtain ⟨g, sm, rm, im, fm⟩ := env
    dsimp only at hg hs hr
    subst hg; subst hs; subst hr
    have hcp := create_user_profile_lookup s u.id (resolveName u) "user"
    simp [ensureUserInProfiles, ensureInner, hl]
    simpa [coerceRole] using hcp
  · intro s uid nm fullName email
    have hcp := create_user_profile_lookup s uid (triggerName nm fullName email) "user"
    simpa [handle_new_user, coerceRole] using hcp

/-- Witness for C6: the admin string stores admin, another string stores
user, and a bootstrap creation run stores role user. -/
theorem create_user_profile_role_coercion_witness :
    coerceRole "admin" = Role.admin
    ∧ coerceRole "superuser" = Role.user
    ∧ storeLookup (ensureUserInProfiles
        (Env.mk (GetUserRes.ok (some ⟨"w1", none, none⟩)) CallMode.ok CallMode.ok
          CallMode.ok CallMode.ok) []).store "w1"
      = some ⟨"w1", resolveName ⟨"w1", none, none⟩, Role.user⟩ :=
  ⟨by decide, by decide,
    create_user_profile_role_coercion.2.2.1
      (Env.mk (GetUserRes.ok (some ⟨"w1", none, none⟩)) CallMode.ok CallMode.ok
        CallMode.ok CallMode.ok)
      [] ⟨"w1", none, none⟩ rfl rfl rfl rfl⟩

/-- C5 counterexample: with metadata name present but empty and full_name
Bob Lee, the client resolves Bob Lee (JS || skips the empty string), while
the claim's presence-based priority resolves the empty string, as does the
trigger's COALESCE; so the claimed exact priority does not match the
client and the trigger does not resolve by the same priority as the
client. -/
theorem resolveName_claim_counterexample :
    resolveName ⟨"u1", some "carol@x.com", some ⟨some "", some "Bob Lee"⟩⟩ = "Bob Lee"
    ∧ resolveNamePresent ⟨"u1", some "carol@x.com", some ⟨some "", some "Bob Lee"⟩⟩ = ""
    ∧ triggerName (some "") (some "Bob Lee") (some "carol@x.com") = ""
    ∧ resolveName ⟨"u1", some "carol@x.com", some ⟨some "", some "Bob Lee"⟩⟩
        ≠ resolveNamePresent ⟨"u1", some "carol@x.com", some ⟨some "", some "Bob Lee"⟩⟩
    ∧ resolveName ⟨"u1", some "carol@x.com", some ⟨some "", some "Bob Lee"⟩⟩
        ≠ triggerName (some "") (some "Bob Lee") (some "carol@x.com") :=
  ⟨by decide, by decide, by decide, by decide, by decide⟩

/-- C5 amended: the client resolves the display name by priority over
JS-truthy (present and non-empty) values: metadata name, else full_name,
else the email local part, else the literal User; all four examples of the
claim hold; the trigger skips only absent values, so it agrees with the
client whenever no candidate value is the empty string; and the profile
created by the bootstrap carries the client-resolved name. -/
theorem resolveName_amended :
    resolveName ⟨"u1", some "alice@x.com", some ⟨some "Alice", none⟩⟩ = "Alice"
    ∧ resolveName ⟨"u2", none, some ⟨none, some "Bob Lee"⟩⟩ = "Bob Lee"
    ∧ resolveName ⟨"u3", some "carol@x.com", none⟩ = "carol"
    ∧ resolveName ⟨"u4", none, none⟩ = "User"
    ∧ triggerName (some "Alice") none (some "alice@x.com") = "Alice"
    ∧ triggerName none (some "Bob Lee") none = "Bob Lee"
    ∧ triggerName none none (some "carol@x.com") = "carol"
    ∧ triggerName none none none = "User"
    ∧ (∀ (uid : String) (nm fullName em : Option String),
        nm ≠ some "" → fullName ≠ some "" → em.map localPart ≠ some "" →
        resolveName ⟨uid, em, some ⟨nm, fullName⟩⟩ = triggerName nm fullName em)
    ∧ (∀ (env : Env) (s : Store) (u : AuthUser),
        env.getUser = GetUserRes.ok (some u) → env.selectMode = CallMode.ok →
        storeLookup s u.id = none → env.rpcMode = CallMode.ok →
        storeLookup (ensureUserInProfiles env s).store u.id
          = some ⟨u.id, resolveName u, Role.user⟩) := by
  refine ⟨by decide, by decide, by decide, by decide, by decide, by decide,
    by decide, by decide, ?_, ?_⟩
  · intro uid nm fullName em h1 h2 h3
    cases nm with
    | some n =>
      have hn : ¬ n = "" := fun hh => h1 (by rw [hh])
      simp [resolveName, triggerName, jsTruthy, hn]
    | none =>
      cases fullName with
      | some f =>
        have hf : ¬ f = "" := fun hh => h2 (by rw [hh])
        simp [resolveName, triggerName, jsTruthy, hf]
      | none =>
        cases em with
        | some e =>
          have he : ¬ localPart e = "" := fun hh => h3 (by simp [hh])
          simp [resolveName, triggerName, jsTruthy, he]
        | none => simp [resolveName, triggerName, jsTruthy]
  · intro env s u hg hs hl hr
    obtain ⟨g, sm, rm, im, fm⟩ := env
    dsimp only at hg hs hr
    subst hg; subst hs; subst hr
    have hcp := create_user_profile_lookup s u.id (resolveName u) "user"
    simp [ensureUserInProfiles, ensureInner, hl]
    simpa [coerceRole] using hcp

/-- Witness for C5 amended: a non-empty name Dina agrees between client and
trigger resolution. -/
theorem resolveName_amended_witness :
    (some "Dina" : Option String) ≠ some ""
    ∧ (none : Option String) ≠ some ""
    ∧ (some "d@x.com" : Option String).map localPart ≠ some ""
    ∧ resolveName ⟨"w2", some "d@x.com", some ⟨some "Dina", none⟩⟩
        = triggerName (some "Dina") none (some "d@x.com") :=
  ⟨by decide, by decide, by decide,
    resolveName_amended.2.2.2.2.2.2.2.2.1 "w2" (some "Dina") none (some "d@x.com")
      (by decide) (by decide) (by decide)⟩

/-! Helper lemmas for the shipment map handler. -/

theorem map_id_replaceFirstShip (l : List ShipLoc) (p : ShipLoc) :
    (replaceFirstShip l p).map ShipLoc.id = l.map ShipLoc.id := by
  induction l with
  | nil => rfl
  | cons q rest ih =>
    by_cases hq : q.id = p.id
    · simp [replaceFirstShip, hq]
    · simp [replaceFirstShip, hq, ih]

theorem find?_replaceFirstShip (l : List ShipLoc) (p : ShipLoc)
    (h : l.any (fun s => s.id = p.id) = true) :
    (replaceFirstShip l p).find? (fun s => s.id = p.id) = some p := by
  induction l with
  | nil => simp at h
  | cons q rest ih =>
    by_cases hq : q.id = p.id
    · simp [replaceFirstShip, hq]
    · have h2 : rest.any (fun s => s.id = p.id) = true := by simpa [hq] using h
      simpa [replaceFirstShip, hq] using ih h2

/-- C8 counterexample: an INSERT event carrying a located shipment leaves
the map state unchanged, while the claimed behavior adds the record; the
handler has no insert branch. -/
theorem shipmentEvent_insert_counterexample :
    handleShipmentEvent (RtEvent.ins ⟨"s1", some 1, some 2⟩) [] = []
    ∧ handleShipmentEventClaim (RtEvent.ins ⟨"s1", some 1, some 2⟩) []
        = [⟨"s1", 1, 2⟩]
    ∧ handleShipmentEvent (RtEvent.ins ⟨"s1", some 1, some 2⟩) []
        ≠ handleShipmentEventClaim (RtEvent.ins ⟨"s1", some 1, some 2⟩) [] :=
  ⟨by decide, by decide, by decide⟩

/-- C8 amended: update events with truthy (non-null, non-zero) coordinates
replace the first matching shipment or append a new one; update events
without truthy coordinates are ignored; delete events remove the
shipments with the carried id; insert events are ignored. -/
theorem handleShipmentEvent_amended :
    (∀ (row : ShipRow) (prev : List ShipLoc),
      handleShipmentEvent (RtEvent.ins row) prev = prev)
    ∧ (∀ (oldId : String) (prev : List ShipLoc) (s : ShipLoc),
        s ∈ handleShipmentEvent (RtEvent.del oldId) prev
          ↔ (s ∈ prev ∧ s.id ≠ oldId))
    ∧ (∀ (row : ShipRow) (prev : List ShipLoc),
        (numTruthy row.current_lat && numTruthy row.current_lng) = false →
        handleShipmentEvent (RtEvent.update row) prev = prev)
    ∧ (∀ (row : ShipRow) (prev : List ShipLoc),
        (numTruthy row.current_lat && numTruthy row.current_lng) = true →
        prev.any (fun s => s.id = row.id) = false →
        handleShipmentEvent (RtEvent.update row) prev = prev ++ [shipOfRow row])
    ∧ (∀ (row : ShipRow) (prev : List ShipLoc),
        (numTruthy row.current_lat && numTruthy row.current_lng) = true →
        prev.any (fun s => s.id = row.id) = true →
        (handleShipmentEvent (RtEvent.update row) prev).map ShipLoc.id
            = prev.map ShipLoc.id
        ∧ (handleShipmentEvent (RtEvent.update row) prev).find?
            (fun s => s.id = row.id) = some (shipOfRow row)) := by
  refine ⟨fun row prev => rfl, ?_, ?_, ?_, ?_⟩
  · intro oldId prev s
    simp [handleShipmentEvent, List.mem_filter]
  · intro row prev h
    simp [handleShipmentEvent, h]
  · intro row prev h hany
    simp [handleShipmentEvent, h, hany]
  · intro row prev h hany
    refine ⟨?_, ?_⟩
    · simp [handleShipmentEvent, h, hany, map_id_replaceFirstShip]
    · simp only [handleShipmentEvent, h, hany, if_true, Bool.and_self]
      exact find?_replaceFirstShip prev (shipOfRow row) hany

/-- Witness for C8 amended: an update with truthy coordinates and no
matching shipment appends the new marker. -/
theorem handleShipmentEvent_amended_witness :
    (numTruthy (ShipRow.mk "s9" (some 3) (some 4)).current_lat
      && numTruthy (ShipRow.mk "s9" (some 3) (some 4)).current_lng) = true
    ∧ ([] : List ShipLoc).any (fun s => s.id = (ShipRow.mk "s9" (some 3) (some 4)).id)
        = false
    ∧ handleShipmentEvent (RtEvent.update (ShipRow.mk "s9" (some 3) (some 4))) []
        = [] ++ [shipOfRow (ShipRow.mk "s9" (some 3) (some 4))] :=
  ⟨by decide, by decide,
    handleShipmentEvent_amended.2.2.2.1 (ShipRow.mk "s9" (some 3) (some 4)) []
      (by decide) (by decide)⟩

/-! Helper lemmas for fetchUserProfile. -/

theorem fetch_select_not_ok (step : Nat → FetchStep) (s : Store) (uid : String)
    (rc : Nat) (h : ¬ (step rc).selectMode = CallMode.ok) :
    fetchUserProfile step s uid rc = (none, s, 1) := by
  cases hm : (step rc).selectMode
  · exact absurd hm h
  · unfold fetchUserProfile
    rw [hm]
  · unfold fetchUserProfile
    rw [hm]

theorem fetch_attempts_ge2 (step : Nat → FetchStep) (s : Store) (uid : String)
    (rc : Nat) (h : 2 ≤ rc) :
    (fetchUserProfile step s uid rc).2.2 = 1 := by
  cases hm : (step rc).selectMode
  · unfold fetchUserProfile
    rw [hm]
    cases hl : storeLookup s uid
    · rw [dif_neg (fun hc => absurd hc.2 (by omega))]
    · rfl
  · rw [fetch_select_not_ok step s uid rc (by simp [hm])]
  · rw [fetch_select_not_ok step s uid rc (by simp [hm])]

theorem fetch_attempts_rc1 (step : Nat → FetchStep) (s : Store) (uid : String) :
    (fetchUserProfile step s uid 1).2.2 ≤ 2 := by
  cases hm : (step 1).selectMode
  · unfold fetchUserProfile
    rw [hm]
    cases hl : storeLookup s uid
    · by_cases hg : (ensureUserInProfiles (step 1).ensureEnv s).result = true ∧ 1 < 2
      · rw [dif_pos hg]
        have h2 := fetch_attempts_ge2 step
          (ensureUserInProfiles (step 1).ensureEnv s).store uid 2 (by omega)
        simp [h2]
      · rw [dif_neg hg]
        simp
    · simp
  · rw [fetch_select_not_ok step s uid 1 (by simp [hm])]
    simp
  · rw [fetch_select_not_ok step s uid 1 (by simp [hm])]
    simp

theorem fetch_attempts_rc0 (step : Nat → FetchStep) (s : Store) (uid : String) :
    (fetchUserProfile step s uid 0).2.2 ≤ 3 := by
  cases hm : (step 0).selectMode
  · unfold fetchUserProfile
    rw [hm]
    cases hl : storeLookup s uid
    · by_cases hg : (ensureUserInProfiles (step 0).ensureEnv s).result = true ∧ 0 < 2
      · rw [dif_pos hg]
        have h1 : (fetchUserProfile step
            (ensureUserInProfiles (step 0).ensureEnv s).store uid (0 + 1)).2.2 ≤ 2 :=
          fetch_attempts_rc1 step (ensureUserInProfiles (step 0).ensureEnv s).store uid
        dsimp only
        omega
      · rw [dif_neg hg]
        simp
    · simp
  · rw [fetch_select_not_ok step s uid 0 (by simp [hm])]
    simp
  · rw [fetch_select_not_ok step s uid 0 (by simp [hm])]
    simp

/-- C10: fetchUserProfile always terminates within 3 select attempts from
the initial call: a retry happens only when the select succeeded with no
row, the intervening ensureUserInProfiles returned true and retryCount is
below 2; a select error returns null with one attempt, and once
retryCount reaches 2 no further retry is issued, so exhaustion with no
row returns null. -/
theorem fetchUserProfile_bounded :
    (∀ (step : Nat → FetchStep) (s : Store) (uid : String),
      (fetchUserProfile step s uid 0).2.2 ≤ 3)
    ∧ (∀ (step : Nat → FetchStep) (s : Store) (uid : String) (rc : Nat),
        ¬ (step rc).selectMode = CallMode.ok →
        fetchUserProfile step s uid rc = (none, s, 1))
    ∧ (∀ (step : Nat → FetchStep) (s : Store) (uid : String) (rc : Nat),
        1 < (fetchUserProfile step s uid rc).2.2 →
        ((step rc).selectMode = CallMode.ok ∧ storeLookup s uid = none
          ∧ (ensureUserInProfiles (step rc).ensureEnv s).result = true ∧ rc < 2))
    ∧ (∀ (step : Nat → FetchStep) (s : Store) (uid : String) (rc : Nat),
        2 ≤ rc → storeLookup s uid = none →
        (fetchUserProfile step s uid rc).1 = none
          ∧ (fetchUserProfile step s uid rc).2.2 = 1) := by
  refine ⟨fetch_attempts_rc0, fetch_select_not_ok, ?_, ?_⟩
  · intro step s uid rc h
    cases hm : (step rc).selectMode
    · refine ⟨rfl, ?_⟩
      unfold fetchUserProfile at h
      rw [hm] at h
      cases hl : storeLookup s uid
      · rw [hl] at h
        by_cases hg : (ensureUserInProfiles (step rc).ensureEnv s).result = true
            ∧ rc < 2
        · exact ⟨rfl, hg.1, hg.2⟩
        · rw [dif_neg hg] at h
          simp at h
      · rw [hl] at h
        simp at h
    · rw [fetch_select_not_ok step s uid rc (by simp [hm])] at h
      simp at h
    · rw [fetch_select_not_ok step s uid rc (by simp [hm])] at h
      simp at h
  · intro step s uid rc h hl
    cases hm : (step rc).selectMode
    · unfold fetchUserProfile
      rw [hm, hl, dif_neg (fun hc => absurd hc.2 (by omega))]
      exact ⟨rfl, rfl⟩
    · rw [fetch_select_not_ok step s uid rc (by simp [hm])]
      exact ⟨rfl, rfl⟩
    · rw [fetch_select_not_ok step s uid rc (by simp [hm])]
      exact ⟨rfl, rfl⟩

/-- Witness for C10: a run whose select always errs performs one attempt
and returns null; a run at retryCount 2 with an empty store returns null
in one attempt; and a healthy run from retryCount 0 makes at most 3
attempts. -/
theorem fetchUserProfile_bounded_witness :
    (¬ ((fun _ => FetchStep.mk CallMode.errReturned
        (Env.mk (GetUserRes.ok none) CallMode.ok CallMode.ok CallMode.ok
          CallMode.ok)) 0).selectMode = CallMode.ok)
    ∧ fetchUserProfile
        (fun _ => FetchStep.mk CallMode.errReturned
          (Env.mk (GetUserRes.ok none) CallMode.ok CallMode.ok CallMode.ok
            CallMode.ok)) [] "w1" 0 = (none, [], 1)
    ∧ (fetchUserProfile
        (fun _ => FetchStep.mk CallMode.ok
          (Env.mk (GetUserRes.ok none) CallMode.ok CallMode.ok CallMode.ok
            CallMode.ok)) [] "w1" 2).1 = none :=
  ⟨by decide,
    fetchUserProfile_bounded.2.1
      (fun _ => FetchStep.mk CallMode.errReturned
        (Env.mk (GetUserRes.ok none) CallMode.ok CallMode.ok CallMode.ok
          CallMode.ok)) [] "w1" 0 (by decide),
    (fetchUserProfile_bounded.2.2.2
      (fun _ => FetchStep.mk CallMode.ok
        (Env.mk (GetUserRes.ok none) CallMode.ok CallMode.ok CallMode.ok
          CallMode.ok)) [] "w1" 2 (by omega) rfl).1⟩

end DupTrack
